import Mathlib

/-!
Verification development for the `atmdb` asynchronous TMDb API client.

The definitions below are a shallow embedding, in Lean 4, of the Python
source under `src/atmdb/` (`models.py`, `core.py`, `client.py`,
`utils.py`).  Python's dynamically typed values are embedded as the
inductive `PyVal`; Python exceptions are embedded as `PyErr`, and every
fallible operation returns `Except PyErr _`.  Each definition carries a
comment naming the Python function or statement it transcribes.
-/

/-- Python exceptions raised by the code paths modelled here.
`recursionError` stands for the interpreter's recursion limit, reached
only when the bounded-fuel embedding of the mutually recursive decoders
runs out of fuel. -/
inductive PyErr where
  | typeError (msg : String)
  | valueError (msg : String)
  | attributeError (msg : String)
  | keyError (key : String)
  | recursionError
deriving DecidableEq

deriving instance DecidableEq for Except

mutual
/-- Embedding of the Python runtime values that `atmdb` manipulates:
JSON scalars and containers (`json.loads` output), `datetime.date`
values produced by `strptime(...).date()`, Python `set`s (member list in
insertion order), and the three model classes of `models.py` with their
instance attributes in declaration order:
`BaseModel(id_, image_path)`,
`Movie(id_, image_path, cast, synopsis, title, release_date)`,
`Person(id_, image_path, biography, birthday, movie_credits, known_for, name)`. -/
inductive PyVal where
  | none
  | bool (b : Bool)
  | int (n : Int)
  | str (s : String)
  | pydate (y m d : Nat)
  | pylist (xs : PyValList)
  | pyset (xs : PyValList)
  | pydict (fields : PyFields)
  | base (id_ image_path : PyVal)
  | movie (id_ image_path cast synopsis title release_date : PyVal)
  | person (id_ image_path biography birthday movie_credits known_for name : PyVal)
deriving DecidableEq

/-- A sequence of embedded Python values (elements of a `list` or `set`
literal, in order). -/
inductive PyValList where
  | nil
  | cons (hd : PyVal) (tl : PyValList)
deriving DecidableEq

/-- The key/value entries of an embedded Python `dict`, in insertion
order.  Keys are strings, as in every dict the client builds or decodes. -/
inductive PyFields where
  | nil
  | cons (key : String) (val : PyVal) (tl : PyFields)
deriving DecidableEq
end

/-- View of a `PyValList` as a Lean list. -/
def PyValList.toList : PyValList → List PyVal
  | .nil => []
  | .cons x xs => x :: xs.toList

/-- Build a `PyValList` from a Lean list. -/
def pyListOf : List PyVal → PyValList
  | [] => .nil
  | x :: xs => .cons x (pyListOf xs)

/-- View of `PyFields` as a Lean association list. -/
def PyFields.toList : PyFields → List (String × PyVal)
  | .nil => []
  | .cons k v tl => (k, v) :: tl.toList

/-- Build `PyFields` from a Lean association list. -/
def pyFieldsOf : List (String × PyVal) → PyFields
  | [] => .nil
  | (k, v) :: tl => .cons k v (pyFieldsOf tl)

/-- `d.get(k)` / `d[k]` lookup on a Python dict: the value of the first
(unique, in any real dict) entry with key `k`. -/
def dictGet : PyFields → String → Option PyVal
  | .nil, _ => Option.none
  | .cons k v tl, key => if k = key then some v else dictGet tl key

/-- `json.get(key)` — missing keys yield Python `None`
(so `dictGetD d k PyVal.none`); `json.get(key, default)` in general. -/
def dictGetD (d : PyFields) (key : String) (default : PyVal) : PyVal :=
  match dictGet d key with
  | some v => v
  | Option.none => default

/-- `d[k] = v` on a Python dict: an existing key keeps its position and
gets the new value; a new key is appended last. -/
def dictSet : PyFields → String → PyVal → PyFields
  | .nil, key, v => .cons key v .nil
  | .cons k w tl, key, v =>
    if k = key then .cons k v tl else .cons k w (dictSet tl key v)

/-- Structural equality test on embedded values.  It models Python `==`
on JSON-derived data (`None`, booleans, numbers, strings, dates and
containers thereof), where Python equality is structural.  (The only
divergence is Python's `True == 1`, which no code path here exercises.) -/
def pyEqPrim (a b : PyVal) : Bool := decide (a = b)

/-- `id_` attribute of a model instance (`self.id_`); other values are
returned unchanged (never used on them). -/
def entityIdVal : PyVal → PyVal
  | .base i _ => i
  | .movie i _ _ _ _ _ => i
  | .person i _ _ _ _ _ _ => i
  | v => v

/-- `isinstance(x, BaseModel)`: `Movie` and `Person` are the subclasses
of `BaseModel` declared in `models.py`. -/
def isBaseModelInstance : PyVal → Bool
  | .base _ _ => true
  | .movie _ _ _ _ _ _ => true
  | .person _ _ _ _ _ _ _ => true
  | _ => false

/-- Python `a == b` as evaluated by the left operand's `__eq__`.
`BaseModel.__eq__` (models.py:48-49) is
`isinstance(other, type(self)) and self.id_ == other.id_`:
for a `Movie` the `isinstance` check demands a `Movie`, for a `Person`
a `Person`, and for a direct `BaseModel` instance any of the three
classes qualifies.  Non-model values compare structurally. -/
def pyEq (a b : PyVal) : Bool :=
  match a with
  | .movie i _ _ _ _ _ =>
    match b with
    | .movie i' _ _ _ _ _ => pyEqPrim i i'
    | _ => false
  | .person i _ _ _ _ _ _ =>
    match b with
    | .person i' _ _ _ _ _ _ => pyEqPrim i i'
    | _ => false
  | .base i _ => if isBaseModelInstance b then pyEqPrim i (entityIdVal b) else false
  | _ => pyEqPrim a b

/-- Model of the Python builtin `hash` on the values used as TMDb ids
(integers hash to themselves for the magnitudes involved; the exact
values are irrelevant to the claims, which only need that entity
hashing factors through this function of the id). -/
def pyValHash : PyVal → Int
  | .int n => n
  | .bool b => if b then 1 else 0
  | .str s => s.foldl (fun h c => h * 31 + (c.toNat : Int)) 7
  | _ => 0

/-- `BaseModel.__hash__` (models.py:51-52): `hash(self.id_)`. -/
def entityHash (e : PyVal) : Int := pyValHash (entityIdVal e)

/-- Claim C2 — corrected.  Within one kind, equality is by id alone
(`A == B` iff `A.id_ == B.id_`, whatever the other fields), and the hash
of any model instance is a function of its id alone. -/
theorem c2_identity_by_id_same_kind :
    (∀ i p c s t r i' p' c' s' t' r',
      (pyEq (PyVal.movie i p c s t r) (PyVal.movie i' p' c' s' t' r') = true ↔ i = i')) ∧
    (∀ i p b bd mc kf n i' p' b' bd' mc' kf' n',
      (pyEq (PyVal.person i p b bd mc kf n) (PyVal.person i' p' b' bd' mc' kf' n') = true ↔
        i = i')) ∧
    (∀ i p c s t r, entityHash (PyVal.movie i p c s t r) = pyValHash i) ∧
    (∀ i p b bd mc kf n, entityHash (PyVal.person i p b bd mc kf n) = pyValHash i) := by
  refine ⟨fun _ _ _ _ _ _ _ _ _ _ _ _ => ?_, fun _ _ _ _ _ _ _ _ _ _ _ _ _ _ => ?_,
    fun _ _ _ _ _ _ => rfl, fun _ _ _ _ _ _ _ => rfl⟩ <;>
    simp [pyEq, pyEqPrim]

/-- Claim C2 — counterexample to the claim as stated: a `Movie` and a
`Person` with the same id are *not* equal (`Movie.__eq__` requires
`isinstance(other, Movie)`), although `A.id == B.id`. -/
theorem c2_counterexample :
    pyEq (PyVal.movie (.int 1) .none .none .none .none .none)
        (PyVal.person (.int 1) .none .none .none .none .none .none) = false ∧
    entityIdVal (PyVal.movie (.int 1) .none .none .none .none .none) =
      entityIdVal (PyVal.person (.int 1) .none .none .none .none .none .none) := by
  exact ⟨rfl, rfl⟩

/-- Membership of `x` in a sequence of values, element compared with
Python `==` (`pyEq`).  Models both `x in somelist` and `x in someset`
for the data handled here (entity sets compare by id, so hash-based set
lookup and `==`-based list lookup agree). -/
def pyMemList (x : PyVal) (ys : List PyVal) : Bool :=
  ys.any (fun y => pyEq x y)

/-- `for x in v`: iterating an embedded value.  Lists, sets and dicts
(over their keys) iterate; strings iterate their characters; anything
else raises `TypeError` as in Python. -/
def pyIterList : PyVal → Except PyErr (List PyVal)
  | .pylist xs => .ok xs.toList
  | .pyset xs => .ok xs.toList
  | .pydict d => .ok (d.toList.map (fun kv => .str kv.1))
  | .str s => .ok (s.toList.map (fun c => .str (String.mk [c])))
  | .none => .error (.typeError "'NoneType' object is not iterable")
  | _ => .error (.typeError "object is not iterable")

/-- `item in container` for the containers this code tests membership
against.  `None` (an absent cross-reference set) is not iterable. -/
def pyContainsIter (container item : PyVal) : Except PyErr Bool :=
  match container with
  | .pylist xs => .ok (pyMemList item xs.toList)
  | .pyset xs => .ok (pyMemList item xs.toList)
  | .none => .error (.typeError "argument of type 'NoneType' is not iterable")
  | _ => .error (.typeError "argument is not a container")

/-- Building a Python set from the elements produced by a comprehension:
an element equal (`==`) to one already present is not added again. -/
def setInsert (acc : List PyVal) (x : PyVal) : List PyVal :=
  if pyMemList x acc then acc else acc ++ [x]

/-- The member list of a set literal `{e₁, …, eₙ}`, in insertion order. -/
def setFromList (xs : List PyVal) : List PyVal :=
  xs.foldl setInsert []

/-- `BaseModel.CONTAINS` and its overrides (models.py:24, 140, 211):
the cross-reference attribute and the *name* of the contained class
(`Movie.CONTAINS = dict(attr='cast', type='Person')`,
`Person.CONTAINS = dict(attr='movie_credits', type='Movie')`;
`BaseModel.CONTAINS = None`). -/
def containsRule : PyVal → Option (String × String)
  | .movie _ _ _ _ _ _ => some ("cast", "Person")
  | .person _ _ _ _ _ _ _ => some ("movie_credits", "Movie")
  | _ => Option.none

/-- `isinstance(item, cls)` where `cls` was looked up by name among
`BaseModel.__subclasses__()` (models.py:43-45). -/
def isInstanceOfName (item : PyVal) (typeName : String) : Bool :=
  match item with
  | .movie _ _ _ _ _ _ => typeName = "Movie"
  | .person _ _ _ _ _ _ _ => typeName = "Person"
  | _ => false

/-- `getattr(self, attr)` for the instance attributes of the models. -/
def getEntityAttr (e : PyVal) (attr : String) : Except PyErr PyVal :=
  match e with
  | .base i p =>
    if attr = "id_" then .ok i else if attr = "image_path" then .ok p
    else .error (.attributeError ("'BaseModel' object has no attribute '" ++ attr ++ "'"))
  | .movie i p c s t r =>
    if attr = "id_" then .ok i else if attr = "image_path" then .ok p
    else if attr = "cast" then .ok c else if attr = "synopsis" then .ok s
    else if attr = "title" then .ok t else if attr = "release_date" then .ok r
    else .error (.attributeError ("'Movie' object has no attribute '" ++ attr ++ "'"))
  | .person i p b bd mc kf n =>
    if attr = "id_" then .ok i else if attr = "image_path" then .ok p
    else if attr = "biography" then .ok b else if attr = "birthday" then .ok bd
    else if attr = "movie_credits" then .ok mc else if attr = "known_for" then .ok kf
    else if attr = "name" then .ok n
    else .error (.attributeError ("'Person' object has no attribute '" ++ attr ++ "'"))
  | _ => .error (.attributeError ("object has no attribute '" ++ attr ++ "'"))

/-- `BaseModel.__contains__` (models.py:39-46):
```
if self.CONTAINS is None: return False
attr = self.CONTAINS['attr']
cls = subclasses[self.CONTAINS['type']]
return isinstance(item, cls) and item in getattr(self, attr)
```
The `and` short-circuits, so a wrongly-typed item returns `False`
without touching the attribute. -/
def dunderContains (self item : PyVal) : Except PyErr Bool :=
  match containsRule self with
  | Option.none => .ok false
  | some (attr, typeName) =>
    if isInstanceOfName item typeName then do
      let container ← getEntityAttr self attr
      pyContainsIter container item
    else .ok false

/-- Claim C10 — confirmed.  With an absent (`None`) cast set, testing a
`Person` against a `Movie` raises `TypeError` rather than returning
`False` (and symmetrically for `Person.movie_credits`); with the set
present the test returns a boolean; a plain `BaseModel`, whose
`CONTAINS` is `None`, always returns `False`. -/
theorem c10_contains_absent_set_raises :
    (∀ i p s t r i' p' b' bd' mc' kf' n',
      dunderContains (PyVal.movie i p PyVal.none s t r)
        (PyVal.person i' p' b' bd' mc' kf' n')
        = .error (.typeError "argument of type 'NoneType' is not iterable")) ∧
    (∀ i p b bd kf n i' p' c' s' t' r',
      dunderContains (PyVal.person i p b bd PyVal.none kf n)
        (PyVal.movie i' p' c' s' t' r')
        = .error (.typeError "argument of type 'NoneType' is not iterable")) ∧
    (∀ i p s t r xs item, ∃ bb,
      dunderContains (PyVal.movie i p (PyVal.pyset xs) s t r) item = .ok bb) ∧
    (∀ i p item, dunderContains (PyVal.base i p) item = .ok false) := by
  refine ⟨fun _ _ _ _ _ _ _ _ _ _ _ _ => rfl, fun _ _ _ _ _ _ _ _ _ _ _ _ => rfl,
    fun i p s t r xs item => ?_, fun _ _ _ => rfl⟩
  cases item <;> exact ⟨_, rfl⟩

/-- The member sequence a value contributes to `set.intersection` when
passed as one of the trailing arguments (the builtin accepts arbitrary
iterables there; `None` — an absent cross-reference set — raises
`TypeError`). -/
def asIterMembers (v : PyVal) : Except PyErr (List PyVal) := pyIterList v

/-- `utils._overlap` restricted to its computation (utils.py:94-96 with
`client is None`):
`set.intersection(*(getattr(item, overlap_attr) for item in items))`.
With no items the unbound `set.intersection` has no `self` argument and
raises `TypeError`; otherwise the first attribute value must be a set,
and the result keeps those of its members present in every other
attribute value. -/
def overlapModel (items : List PyVal) (attr : String) : Except PyErr PyVal :=
  match items.mapM (fun item => getEntityAttr item attr) with
  | .error e => .error e
  | .ok [] =>
    .error (.typeError "descriptor 'intersection' of 'set' object needs an argument")
  | .ok (.pyset xs :: rest) =>
    match rest.mapM asIterMembers with
    | .error e => .error e
    | .ok memberLists =>
      .ok (.pyset (pyListOf (xs.toList.filter
        (fun x => memberLists.all (fun ys => pyMemList x ys)))))
  | .ok (_ :: _) => .error (.typeError "descriptor 'intersection' requires a 'set' object")

/-- The three `Person` entities of the overlap example: movie-credit
sets `{1,2}`, `{2,3}`, `{2,4}` by id. -/
def overlapExampleMovie (i : Int) : PyVal :=
  PyVal.movie (.int i) .none .none .none (.str "") .none

/-- Person with the given id and movie-credit id pair, as in
`tests/test_utils.py`. -/
def overlapExamplePerson (i a b : Int) : PyVal :=
  PyVal.person (.int i) .none .none .none
    (.pyset (pyListOf [overlapExampleMovie a, overlapExampleMovie b])) .none (.str "")

/-- Claim C7 — confirmed.  (i) `_overlap` over zero entities raises (the
spec's `InvalidArgument`, realised as the `TypeError` from calling the
unbound `set.intersection` with no arguments) instead of returning a
universal set; (ii) with at least one entity whose named attribute is a
set and the remaining attributes iterable, the result is exactly the
intersection: its members are the members of the first set that occur
(by `==`, hence by id for entities) in every other one; (iii) on the
spec's example — credit sets `{1,2}`, `{2,3}`, `{2,4}` — the overlap is
exactly `{2}`. -/
theorem c7_overlap_intersection :
    (∀ attr, overlapModel [] attr =
      .error (.typeError "descriptor 'intersection' of 'set' object needs an argument")) ∧
    (∀ items attr xs rest memberLists,
      items.mapM (fun item => getEntityAttr item attr) = .ok (PyVal.pyset xs :: rest) →
      rest.mapM asIterMembers = .ok memberLists →
      ∃ res, overlapModel items attr = .ok (.pyset (pyListOf res)) ∧
        ∀ x, x ∈ res ↔ (x ∈ xs.toList ∧ ∀ ys ∈ memberLists, pyMemList x ys = true)) ∧
    overlapModel [overlapExamplePerson 1 1 2, overlapExamplePerson 2 2 3,
        overlapExamplePerson 3 2 4] "movie_credits" =
      .ok (.pyset (pyListOf [overlapExampleMovie 2])) := by
  refine ⟨fun _ => rfl, ?_, by rfl⟩
  intro items attr xs rest memberLists h1 h2
  refine ⟨xs.toList.filter (fun x => memberLists.all (fun ys => pyMemList x ys)), ?_, ?_⟩
  · simp only [overlapModel, h1, h2]
  · intro x
    simp [List.mem_filter, List.all_eq_true]

/-- Witness for C7's quantified part, at the example input. -/
theorem c7_overlap_intersection_witness :
    ∃ res,
      overlapModel [overlapExamplePerson 1 1 2, overlapExamplePerson 2 2 3,
          overlapExamplePerson 3 2 4] "movie_credits" = .ok (.pyset (pyListOf res)) ∧
      ∀ x, x ∈ res ↔ (x ∈ (pyListOf [overlapExampleMovie 1, overlapExampleMovie 2]).toList ∧
        ∀ ys ∈ [[overlapExampleMovie 2, overlapExampleMovie 3],
                [overlapExampleMovie 2, overlapExampleMovie 4]], pyMemList x ys = true) :=
  c7_overlap_intersection.2.1 _ "movie_credits" _ _ _ (by rfl) (by rfl)

/-- `s.startswith(pre)` (on the character sequence; all strings handled
here are ASCII). -/
def pyStartsWith (s pre : String) : Bool :=
  pre.toList.isPrefixOf s.toList

/-- Model of the Python builtin `int(s)` on a string: optional
surrounding whitespace, optional sign, then decimal digits; anything
else raises `ValueError`. -/
def parseIntStr (s : String) : Option Int :=
  let t := (s.toList.dropWhile Char.isWhitespace).reverse.dropWhile Char.isWhitespace
    |>.reverse
  let core := fun (ds : List Char) =>
    if ds ≠ [] ∧ ds.all Char.isDigit then
      some (ds.foldl (fun acc c => acc * 10 + (c.toNat - '0'.toNat : Int)) 0)
    else Option.none
  match t with
  | '-' :: ds => (core ds).map (fun n => -n)
  | '+' :: ds => core ds
  | ds => core ds

/-- The `key` function of `BaseModel._image_size` (models.py:119-121):
`abs(target_size - int(size[1:])) if size.startswith('w') or
size.startswith('h') else 999`.  Note the sentinel is the finite value
`999`, not infinity. -/
def sizeKey (targetSize : Int) (size : String) : Except PyErr Int :=
  if pyStartsWith size "w" || pyStartsWith size "h" then
    match parseIntStr (String.mk size.toList.tail) with
    | some n => .ok ((targetSize - n).natAbs : Int)
    | Option.none =>
      .error (.valueError ("invalid literal for int() with base 10: " ++
        String.mk size.toList.tail))
  else .ok 999

/-- The running state of the builtin `min(iterable, key=...)`: the first
element seen with the least key so far wins ties (strict `<` replaces). -/
def minByKeyAux {α : Type} (key : α → Except PyErr Int) :
    α → Int → List α → Except PyErr α
  | best, _, [] => .ok best
  | best, bestK, s :: rest =>
    match key s with
    | .error e => .error e
    | .ok k => if k < bestK then minByKeyAux key s k rest else minByKeyAux key best bestK rest

/-- `min(iterable, key=...)`; an empty iterable raises `ValueError`. -/
def minByKey {α : Type} (key : α → Except PyErr Int) : List α → Except PyErr α
  | [] => .error (.valueError "min() arg is an empty sequence")
  | s :: rest =>
    match key s with
    | .error e => .error e
    | .ok k => minByKeyAux key s k rest

/-- `BaseModel._image_size` (models.py:105-122) applied to the size-token
list for the requested image class: the token whose `sizeKey` is least. -/
def imageSizeFromList (targetSize : Int) (sizes : List String) : Except PyErr String :=
  minByKey (sizeKey targetSize) sizes

/-- Invariant of the `min` fold: the result is drawn from the candidates,
its key evaluates without error, and that key is a lower bound for the
running best and for every element still to be scanned. -/
theorem minByKeyAux_spec (key : String → Except PyErr Int) :
    ∀ (rest : List String) (best : String) (bestK : Int) (r : String),
      key best = .ok bestK → minByKeyAux key best bestK rest = .ok r →
      ∃ kr, key r = .ok kr ∧ kr ≤ bestK ∧ (r = best ∨ r ∈ rest) ∧
        ∀ s ∈ rest, ∀ ks, key s = .ok ks → kr ≤ ks := by
  intro rest
  induction rest with
  | nil =>
    intro best bestK r hb hrun
    simp only [minByKeyAux] at hrun
    cases hrun
    exact ⟨bestK, hb, le_refl _, Or.inl rfl, by simp⟩
  | cons s rest ih =>
    intro best bestK r hb hrun
    simp only [minByKeyAux] at hrun
    split at hrun
    · cases hrun
    · rename_i k hks
      split at hrun
      · rename_i hlt
        obtain ⟨kr, h1, h2, h3, h4⟩ := ih s k r hks hrun
        refine ⟨kr, h1, le_trans h2 (le_of_lt hlt), ?_, ?_⟩
        · rcases h3 with h3 | h3
          · exact Or.inr (h3 ▸ List.mem_cons_self s rest)
          · exact Or.inr (List.mem_cons_of_mem s h3)
        · intro u hu ku hku
          rcases List.mem_cons.mp hu with h | h
          · rw [h] at hku; rw [hku] at hks; cases hks; exact h2
          · exact h4 u h ku hku
      · rename_i hlt
        obtain ⟨kr, h1, h2, h3, h4⟩ := ih best bestK r hb hrun
        refine ⟨kr, h1, h2, ?_, ?_⟩
        · rcases h3 with h3 | h3
          · exact Or.inl h3
          · exact Or.inr (List.mem_cons_of_mem s h3)
        · intro u hu ku hku
          rcases List.mem_cons.mp hu with h | h
          · rw [h] at hku; rw [hku] at hks; cases hks
            exact le_trans h2 (le_of_not_lt hlt)
          · exact h4 u h ku hku

/-- Claim C4 — corrected.  (i) The spec's four example selections hold;
(ii) a token without a `w`/`h` prefix is assigned the *finite* key
`999`; (iii) whenever `_image_size` returns a token, that token
minimises the key — `abs(target - numeric part)` for sized tokens,
`999` for unsized ones — over the whole list, first-minimal on ties.
(The claim's "infinitely far" reading fails: see the counterexample.) -/
theorem c4_image_size_selection :
    (imageSizeFromList 300 ["w92", "w154", "w185", "w342", "w500", "w780", "original"]
        = .ok "w342" ∧
      imageSizeFromList 500 ["w92", "w154", "w185", "w342", "w500", "w780", "original"]
        = .ok "w500" ∧
      imageSizeFromList 300 ["w45", "w185", "h632", "original"] = .ok "w185" ∧
      imageSizeFromList 500 ["w45", "w185", "h632", "original"] = .ok "h632") ∧
    (∀ t s, (pyStartsWith s "w" || pyStartsWith s "h") = false → sizeKey t s = .ok 999) ∧
    (∀ target sizes r, imageSizeFromList target sizes = .ok r →
      r ∈ sizes ∧ ∃ kr, sizeKey target r = .ok kr ∧
        ∀ s ∈ sizes, ∀ ks, sizeKey target s = .ok ks → kr ≤ ks) := by
  refine ⟨⟨by decide, by decide, by decide, by decide⟩, ?_, ?_⟩
  · intro t s h
    simp [sizeKey, h]
  · intro target sizes r hrun
    match sizes with
    | [] => cases hrun
    | s₀ :: rest =>
      simp only [imageSizeFromList, minByKey] at hrun
      cases hk0 : sizeKey target s₀ with
      | error e => rw [hk0] at hrun; cases hrun
      | ok k0 =>
        rw [hk0] at hrun
        obtain ⟨kr, h1, h2, h3, h4⟩ := minByKeyAux_spec (sizeKey target) rest s₀ k0 r hk0 hrun
        refine ⟨?_, kr, h1, ?_⟩
        · rcases h3 with h3 | h3
          · exact h3 ▸ List.mem_cons_self s₀ rest
          · exact List.mem_cons_of_mem s₀ h3
        · intro s hs ks hks
          rcases List.mem_cons.mp hs with h | h
          · rw [h] at hks; rw [hks] at hk0; cases hk0; exact h2
          · exact h4 s h ks hks

/-- Witness for C4's quantified parts at concrete inputs. -/
theorem c4_image_size_selection_witness :
    ((pyStartsWith "original" "w" || pyStartsWith "original" "h") = false ∧
      sizeKey 300 "original" = .ok 999) ∧
    ("w342" ∈ ["w92", "w154", "w185", "w342", "w500", "w780", "original"] ∧
      ∃ kr, sizeKey 300 "w342" = .ok kr ∧
        ∀ s ∈ ["w92", "w154", "w185", "w342", "w500", "w780", "original"],
          ∀ ks, sizeKey 300 s = .ok ks → kr ≤ ks) :=
  ⟨⟨by decide, c4_image_size_selection.2.1 300 "original" (by decide)⟩,
    c4_image_size_selection.2.2 300 _ "w342" (by decide)⟩

/-- Claim C4 — counterexample to "unsized tokens are chosen only when no
sized token exists": with sizes `['w2000', 'original']` and target
`300`, the sized token `w2000` is at distance `1700 > 999`, so the code
selects `'original'` even though a sized token exists. -/
theorem c4_counterexample :
    imageSizeFromList 300 ["w2000", "original"] = .ok "original" ∧
    pyStartsWith "w2000" "w" = true := by
  exact ⟨by decide, by decide⟩

/-- Python truthiness (`not x`) for the values tested here: `None`,
`False`, zero, and empty strings/containers are falsy. -/
def pyFalsy : PyVal → Bool
  | .none => true
  | .bool b => !b
  | .int n => n = 0
  | .str s => s.toList = []
  | .pylist xs => xs = .nil
  | .pyset xs => xs = .nil
  | .pydict d => d = .nil
  | _ => false

/-- `v.get(key, default)` as a method call on an arbitrary value: only
dicts have `.get`; anything else raises `AttributeError`. -/
def pyGetD (v : PyVal) (key : String) (default : PyVal) : Except PyErr PyVal :=
  match v with
  | .pydict d => .ok (dictGetD d key default)
  | _ => .error (.attributeError "object has no attribute 'get'")

/-- Model of `datetime.strptime(s, '%Y-%m-%d').date()`: three dash-
separated all-digit groups with a calendar-plausible month and day;
anything else raises `ValueError`. -/
def strptimeYMD (s : String) : Option (Nat × Nat × Nat) :=
  let groups := s.toList.splitOn '-'
  match groups with
  | [ys, ms, ds] =>
    if ys ≠ [] ∧ ys.all Char.isDigit ∧ ms ≠ [] ∧ ms.all Char.isDigit ∧
        ds ≠ [] ∧ ds.all Char.isDigit then
      let toNat := fun (cs : List Char) => cs.foldl (fun acc c => acc * 10 + (c.toNat - '0'.toNat)) 0
      let y := toNat ys
      let m := toNat ms
      let d := toNat ds
      if 1 ≤ m ∧ m ≤ 12 ∧ 1 ≤ d ∧ d ≤ 31 then some (y, m, d) else Option.none
    else Option.none
  | _ => Option.none

/-- The date-field snippet shared by `Movie.from_json` (models.py:186-188)
and `Person.from_json` (models.py:266-268):
`None if not v else datetime.strptime(v, '%Y-%m-%d').date()`.
A falsy value yields `None`; a malformed string raises `ValueError`; a
truthy non-string raises `TypeError` (both out of any `try`). -/
def parseDateField (v : PyVal) : Except PyErr PyVal :=
  if pyFalsy v then .ok PyVal.none
  else
    match v with
    | .str s =>
      match strptimeYMD s with
      | some (y, m, d) => .ok (.pydate y m d)
      | Option.none =>
        .error (.valueError ("time data '" ++ s ++ "' does not match format '%Y-%m-%d'"))
    | _ => .error (.typeError "strptime() argument 1 must be str")

mutual
/-- `Movie.from_json` (models.py:180-189) followed by the generic
`BaseModel.from_json` field mapping (models.py:86-103), on a dict:
1. `json['cast'] = {Person.from_json(p, cfg) for p in
   json.get('credits', {}).get('cast', [])} or None`;
2. `json['release_date'] = None if not release else strptime(...)`;
3. build the instance with, per `Movie.JSON_MAPPING`,
   `cast←'cast'`, `image_path←'poster_path'`, `release_date←'release_date'`,
   `synopsis←'overview'`, `title←'original_title'`, `id_←'id'`,
   each read with `json.get` (missing keys become `None`).
Fuel bounds the `Movie`/`Person` decode recursion (Python's recursion
limit); every theorem below quantifies over or supplies ample fuel. -/
def movieFromJsonF : Nat → PyFields → Except PyErr PyVal
  | 0, _ => .error .recursionError
  | Nat.succ n, d =>
    match pyGetD (dictGetD d "credits" (.pydict .nil)) "cast" (.pylist .nil) with
    | .error e => .error e
    | .ok castV =>
      match pyIterList castV with
      | .error e => .error e
      | .ok castItems =>
        match decodePersonListF n castItems with
        | .error e => .error e
        | .ok castPersons =>
          let castSet := setFromList castPersons
          let d1 := dictSet d "cast"
            (if castSet = [] then PyVal.none else .pyset (pyListOf castSet))
          match parseDateField (dictGetD d1 "release_date" PyVal.none) with
          | .error e => .error e
          | .ok rd =>
            let d2 := dictSet d1 "release_date" rd
            .ok (.movie (dictGetD d2 "id" PyVal.none) (dictGetD d2 "poster_path" PyVal.none)
              (dictGetD d2 "cast" PyVal.none) (dictGetD d2 "overview" PyVal.none)
              (dictGetD d2 "original_title" PyVal.none)
              (dictGetD d2 "release_date" PyVal.none))

/-- `Person.from_json` (models.py:255-269) followed by the generic
field mapping, on a dict:
1. `json['movie_credits'] = {Movie.from_json(m, cfg) for m in
   json.get('movie_credits', {}).get('cast', [])} or None`;
2. `json['known_for'] = {Movie.from_json(m, cfg) for m in
   json.get('known_for', []) if m.get('media_type') == 'movie'} or None`;
3. `json['birthday'] = None if not birthday else strptime(...)`;
4. build the instance with, per `Person.JSON_MAPPING`,
   `biography←'biography'`, `birthday←'birthday'`,
   `image_path←'profile_path'`, `movie_credits←'movie_credits'`,
   `known_for←'known_for'`, `name←'name'`, `id_←'id'`. -/
def personFromJsonF : Nat → PyFields → Except PyErr PyVal
  | 0, _ => .error .recursionError
  | Nat.succ n, d =>
    match pyGetD (dictGetD d "movie_credits" (.pydict .nil)) "cast" (.pylist .nil) with
    | .error e => .error e
    | .ok mcV =>
      match pyIterList mcV with
      | .error e => .error e
      | .ok mcItems =>
        match decodeMovieListF n mcItems with
        | .error e => .error e
        | .ok mcMovies =>
          let mcSet := setFromList mcMovies
          let d1 := dictSet d "movie_credits"
            (if mcSet = [] then PyVal.none else .pyset (pyListOf mcSet))
          match pyIterList (dictGetD d1 "known_for" (.pylist .nil)) with
          | .error e => .error e
          | .ok kfItems =>
            match decodeKnownForF n kfItems with
            | .error e => .error e
            | .ok kfMovies =>
              let kfSet := setFromList kfMovies
              let d2 := dictSet d1 "known_for"
                (if kfSet = [] then PyVal.none else .pyset (pyListOf kfSet))
              match parseDateField (dictGetD d2 "birthday" PyVal.none) with
              | .error e => .error e
              | .ok bd =>
                let d3 := dictSet d2 "birthday" bd
                .ok (.person (dictGetD d3 "id" PyVal.none)
                  (dictGetD d3 "profile_path" PyVal.none)
                  (dictGetD d3 "biography" PyVal.none)
                  (dictGetD d3 "birthday" PyVal.none)
                  (dictGetD d3 "movie_credits" PyVal.none)
                  (dictGetD d3 "known_for" PyVal.none)
                  (dictGetD d3 "name" PyVal.none))

/-- `Movie.from_json` applied to an arbitrary value: the first thing it
does with the value is call `.get` on it, so a non-dict raises
`AttributeError`. -/
def movieFromJsonAnyF : Nat → PyVal → Except PyErr PyVal
  | 0, _ => .error .recursionError
  | Nat.succ n, v =>
    match v with
    | .pydict d => movieFromJsonF n d
    | _ => .error (.attributeError "object has no attribute 'get'")

/-- `Person.from_json` applied to an arbitrary value (see
`movieFromJsonAnyF`). -/
def personFromJsonAnyF : Nat → PyVal → Except PyErr PyVal
  | 0, _ => .error .recursionError
  | Nat.succ n, v =>
    match v with
    | .pydict d => personFromJsonF n d
    | _ => .error (.attributeError "object has no attribute 'get'")

/-- The elements produced by the `{Person.from_json(person, cfg) for
person in ...}` comprehension in `Movie.from_json`, in iteration order
(before set deduplication). -/
def decodePersonListF : Nat → List PyVal → Except PyErr (List PyVal)
  | _, [] => .ok []
  | 0, _ :: _ => .error .recursionError
  | Nat.succ n, x :: xs =>
    match personFromJsonAnyF n x with
    | .error e => .error e
    | .ok p =>
      match decodePersonListF n xs with
      | .error e => .error e
      | .ok ps => .ok (p :: ps)

/-- The elements produced by the `{Movie.from_json(movie, cfg) for movie
in ...}` comprehension in `Person.from_json`. -/
def decodeMovieListF : Nat → List PyVal → Except PyErr (List PyVal)
  | _, [] => .ok []
  | 0, _ :: _ => .error .recursionError
  | Nat.succ n, x :: xs =>
    match movieFromJsonAnyF n x with
    | .error e => .error e
    | .ok m =>
      match decodeMovieListF n xs with
      | .error e => .error e
      | .ok ms => .ok (m :: ms)

/-- The filtered `known_for` comprehension of `Person.from_json`
(models.py:261-265): each item's `media_type` is looked up with `.get`
and only items equal to `'movie'` are decoded. -/
def decodeKnownForF : Nat → List PyVal → Except PyErr (List PyVal)
  | _, [] => .ok []
  | 0, _ :: _ => .error .recursionError
  | Nat.succ n, x :: xs =>
    match pyGetD x "media_type" PyVal.none with
    | .error e => .error e
    | .ok mt =>
      if pyEq mt (.str "movie") then
        match movieFromJsonAnyF n x with
        | .error e => .error e
        | .ok m =>
          match decodeKnownForF n xs with
          | .error e => .error e
          | .ok ms => .ok (m :: ms)
      else decodeKnownForF n xs
end

/-- `BaseModel.from_json` (models.py:86-103) on the base class itself:
`BaseModel.JSON_MAPPING` is `dict(id_='id')`, so the instance is
`BaseModel(id_=json.get('id'))` with `image_path` left at its default
`None`.  It never raises. -/
def baseFromJson (d : PyFields) : Except PyErr PyVal :=
  .ok (.base (dictGetD d "id" PyVal.none) PyVal.none)

/-- Assigning one key of a dict leaves lookups of any other key alone. -/
theorem dictGet_set_ne : ∀ (d : PyFields) (key k : String) (v : PyVal), key ≠ k →
    dictGet (dictSet d key v) k = dictGet d k
  | .nil, key, k, v, h => by simp [dictSet, dictGet, h]
  | .cons k' w tl, key, k, v, h => by
    by_cases hk : k' = key
    · subst hk
      simp [dictSet, dictGet, h]
    · simp only [dictSet, if_neg hk, dictGet]
      by_cases hkk : k' = k
      · simp [hkk]
      · simp [hkk, dictGet_set_ne tl key k v h]

/-- `dictGet_set_ne` lifted to defaulted lookups (`json.get`). -/
theorem dictGetD_set_ne (d : PyFields) (key k : String) (v dv : PyVal) (h : key ≠ k) :
    dictGetD (dictSet d key v) k dv = dictGetD d k dv := by
  unfold dictGetD
  rw [dictGet_set_ne d key k v h]

/-- The two assignments made by `Movie.from_json` (`json['cast']` and
`json['release_date']`) do not disturb the other mapped keys. -/
theorem movieMappedGets (d : PyFields) (x rd : PyVal) :
    dictGetD (dictSet (dictSet d "cast" x) "release_date" rd) "id" PyVal.none
        = dictGetD d "id" PyVal.none ∧
    dictGetD (dictSet (dictSet d "cast" x) "release_date" rd) "poster_path" PyVal.none
        = dictGetD d "poster_path" PyVal.none ∧
    dictGetD (dictSet (dictSet d "cast" x) "release_date" rd) "overview" PyVal.none
        = dictGetD d "overview" PyVal.none ∧
    dictGetD (dictSet (dictSet d "cast" x) "release_date" rd) "original_title" PyVal.none
        = dictGetD d "original_title" PyVal.none := by
  refine ⟨?_, ?_, ?_, ?_⟩ <;>
    rw [dictGetD_set_ne _ _ _ _ _ (by decide), dictGetD_set_ne _ _ _ _ _ (by decide)]

/-- The three assignments made by `Person.from_json` do not disturb the
other mapped keys. -/
theorem personMappedGets (d : PyFields) (x y bd : PyVal) :
    dictGetD (dictSet (dictSet (dictSet d "movie_credits" x) "known_for" y) "birthday" bd)
        "id" PyVal.none = dictGetD d "id" PyVal.none ∧
    dictGetD (dictSet (dictSet (dictSet d "movie_credits" x) "known_for" y) "birthday" bd)
        "profile_path" PyVal.none = dictGetD d "profile_path" PyVal.none ∧
    dictGetD (dictSet (dictSet (dictSet d "movie_credits" x) "known_for" y) "birthday" bd)
        "biography" PyVal.none = dictGetD d "biography" PyVal.none ∧
    dictGetD (dictSet (dictSet (dictSet d "movie_credits" x) "known_for" y) "birthday" bd)
        "name" PyVal.none = dictGetD d "name" PyVal.none := by
  refine ⟨?_, ?_, ?_, ?_⟩ <;>
    rw [dictGetD_set_ne _ _ _ _ _ (by decide), dictGetD_set_ne _ _ _ _ _ (by decide),
      dictGetD_set_ne _ _ _ _ _ (by decide)]

/-- Whenever `Movie.from_json` succeeds, the instance's scalar fields
are exactly `json.get` of their mapped keys on the *input* dict (the
two keys the decoder assigns, `cast` and `release_date`, are
existential here). -/
theorem movieFromJsonF_ok_shape (fuel : Nat) (d : PyFields) (e : PyVal)
    (h : movieFromJsonF fuel d = .ok e) :
    ∃ c r, e = .movie (dictGetD d "id" PyVal.none) (dictGetD d "poster_path" PyVal.none) c
      (dictGetD d "overview" PyVal.none) (dictGetD d "original_title" PyVal.none) r := by
  match fuel with
  | 0 => cases h
  | Nat.succ n =>
    simp only [movieFromJsonF] at h
    split at h
    · cases h
    · split at h
      · cases h
      · split at h
        · cases h
        · split at h
          · cases h
          · cases h
            obtain ⟨h1, h2, h3, h4⟩ := movieMappedGets d _ _
            exact ⟨_, _, by rw [h1, h2, h3, h4]⟩

/-- Whenever `Person.from_json` succeeds, the instance's scalar fields
are exactly `json.get` of their mapped keys on the input dict. -/
theorem personFromJsonF_ok_shape (fuel : Nat) (d : PyFields) (e : PyVal)
    (h : personFromJsonF fuel d = .ok e) :
    ∃ bd mc kf, e = .person (dictGetD d "id" PyVal.none)
      (dictGetD d "profile_path" PyVal.none) (dictGetD d "biography" PyVal.none) bd mc kf
      (dictGetD d "name" PyVal.none) := by
  match fuel with
  | 0 => cases h
  | Nat.succ n =>
    simp only [personFromJsonF] at h
    split at h
    · cases h
    · split at h
      · cases h
      · split at h
        · cases h
        · split at h
          · cases h
          · split at h
            · cases h
            · split at h
              · cases h
              · cases h
                obtain ⟨h1, h2, h3, h4⟩ := personMappedGets d _ _ _
                exact ⟨_, _, _, by rw [h1, h2, h3, h4]⟩

/-- Claim C5 — corrected (decode success must be assumed; see the
counterexample).  Whenever a decode succeeds, the instance's `id_` is
exactly `json.get('id')` of the input, and decoding the same input
twice yields equal (`==`) entities — equality being by id, reflexive on
any decoded instance. -/
theorem c5_decode_id_idempotence :
    (∀ fuel d e, movieFromJsonF fuel d = .ok e →
      entityIdVal e = dictGetD d "id" PyVal.none ∧ pyEq e e = true) ∧
    (∀ fuel d e, personFromJsonF fuel d = .ok e →
      entityIdVal e = dictGetD d "id" PyVal.none ∧ pyEq e e = true) ∧
    (∀ d e, baseFromJson d = .ok e →
      entityIdVal e = dictGetD d "id" PyVal.none ∧ pyEq e e = true) := by
  refine ⟨fun fuel d e h => ?_, fun fuel d e h => ?_, fun d e h => ?_⟩
  · obtain ⟨c, r, rfl⟩ := movieFromJsonF_ok_shape fuel d e h
    exact ⟨rfl, by simp [pyEq, pyEqPrim]⟩
  · obtain ⟨bd, mc, kf, rfl⟩ := personFromJsonF_ok_shape fuel d e h
    exact ⟨rfl, by simp [pyEq, pyEqPrim]⟩
  · cases h
    exact ⟨rfl, by simp [pyEq, pyEqPrim, isBaseModelInstance, entityIdVal]⟩

/-- Witness for C5 at a concrete input carrying an id. -/
theorem c5_decode_id_idempotence_witness :
    movieFromJsonF 3 (pyFieldsOf [("id", PyVal.int 7)]) =
      .ok (.movie (.int 7) .none .none .none .none .none) ∧
    entityIdVal (PyVal.movie (.int 7) .none .none .none .none .none) =
      dictGetD (pyFieldsOf [("id", PyVal.int 7)]) "id" PyVal.none ∧
    pyEq (PyVal.movie (.int 7) .none .none .none .none .none)
      (PyVal.movie (.int 7) .none .none .none .none .none) = true :=
  ⟨by decide,
    (c5_decode_id_idempotence.1 3 (pyFieldsOf [("id", PyVal.int 7)])
      (PyVal.movie (.int 7) .none .none .none .none .none) (by decide)).1,
    (c5_decode_id_idempotence.1 3 (pyFieldsOf [("id", PyVal.int 7)])
      (PyVal.movie (.int 7) .none .none .none .none .none) (by decide)).2⟩

/-- Claim C5 — counterexample to the unconditional claim: this input
carries an id, yet decoding yields no entity at all — the malformed
`release_date` string makes `strptime` raise `ValueError`. -/
theorem c5_counterexample :
    movieFromJsonF 2 (pyFieldsOf [("id", PyVal.int 1), ("release_date", PyVal.str "garbage")])
      = .error (.valueError "time data 'garbage' does not match format '%Y-%m-%d'") := by
  decide

/-- Claim C6 — corrected.  Missing keys never make a decode fail: every
mapped key is read with `json.get`, so a missing key yields an absent
(`None`) field — *including* the id, for which the code raises no
`DecodeError` (no such mechanism exists in `models.py`): decoding the
empty JSON object succeeds with every field absent. -/
theorem c6_missing_keys_absent :
    (∀ d, baseFromJson d = .ok (.base (dictGetD d "id" PyVal.none) PyVal.none)) ∧
    (∀ fuel d e, movieFromJsonF fuel d = .ok e →
      ∃ c r, e = .movie (dictGetD d "id" PyVal.none) (dictGetD d "poster_path" PyVal.none) c
        (dictGetD d "overview" PyVal.none) (dictGetD d "original_title" PyVal.none) r) ∧
    (∀ fuel d e, personFromJsonF fuel d = .ok e →
      ∃ bd mc kf, e = .person (dictGetD d "id" PyVal.none)
        (dictGetD d "profile_path" PyVal.none) (dictGetD d "biography" PyVal.none) bd mc kf
        (dictGetD d "name" PyVal.none)) ∧
    (∀ n, movieFromJsonF (n + 1) .nil =
      .ok (.movie .none .none .none .none .none .none)) ∧
    (∀ n, personFromJsonF (n + 1) .nil =
      .ok (.person .none .none .none .none .none .none .none)) := by
  refine ⟨fun d => rfl, movieFromJsonF_ok_shape, personFromJsonF_ok_shape, fun n => ?_,
    fun n => ?_⟩
  · simp [movieFromJsonF, pyGetD, dictGetD, dictGet, pyIterList, decodePersonListF,
      setFromList, parseDateField, pyFalsy, dictSet, PyValList.toList]
  · simp [personFromJsonF, pyGetD, dictGetD, dictGet, pyIterList, decodeMovieListF,
      decodeKnownForF, setFromList, parseDateField, pyFalsy, dictSet, PyValList.toList]

/-- Witness for C6's quantified parts at concrete inputs. -/
theorem c6_missing_keys_absent_witness :
    (∃ c r, PyVal.movie .none (.str "/p.jpg") .none .none .none .none =
      .movie (dictGetD (pyFieldsOf [("poster_path", PyVal.str "/p.jpg")]) "id" PyVal.none)
        (dictGetD (pyFieldsOf [("poster_path", PyVal.str "/p.jpg")]) "poster_path" PyVal.none)
        c (dictGetD (pyFieldsOf [("poster_path", PyVal.str "/p.jpg")]) "overview" PyVal.none)
        (dictGetD (pyFieldsOf [("poster_path", PyVal.str "/p.jpg")]) "original_title"
          PyVal.none) r) :=
  c6_missing_keys_absent.2.1 2 _ _ (by decide)

/-- Claim C6 — counterexample to "decoding fails with a `DecodeError`
exactly when `id` is missing": the empty object has no `id`, yet the
decode succeeds, producing an entity whose `id_` is `None`. -/
theorem c6_counterexample :
    movieFromJsonF 1 PyFields.nil = .ok (.movie .none .none .none .none .none .none) ∧
    dictGet PyFields.nil "id" = Option.none := by
  exact ⟨by decide, rfl⟩

/-- The `min` key function applied to an element of the configured size
list: `.startswith` on a non-string raises `AttributeError`. -/
def sizeKeyVal (targetSize : Int) (v : PyVal) : Except PyErr Int :=
  match v with
  | .str s => sizeKey targetSize s
  | _ => .error (.attributeError "object has no attribute 'startswith'")

/-- `BaseModel._image_size(image_config, type_, target_size)`
(models.py:105-122): subscript the config dict with
`'{}_sizes'.format(type_)` and take the `min` of the resulting iterable
under `sizeKey`. -/
def imageSize (imageConfig : PyVal) (type_ : String) (targetSize : Int) :
    Except PyErr PyVal :=
  match imageConfig with
  | .pydict cfg =>
    match dictGet cfg (type_ ++ "_sizes") with
    | Option.none => .error (.keyError (type_ ++ "_sizes"))
    | some sizesV =>
      match pyIterList sizesV with
      | .error e => .error e
      | .ok sizeVals => minByKey (sizeKeyVal targetSize) sizeVals
  | _ => .error (.typeError "object is not subscriptable")

/-- `BaseModel._create_image_url` (models.py:66-84).  The first argument
is the value of `self.image_config` — the *class attribute* that
`from_json` assigns (models.py:33, 99).  `None` logs a warning and
returns `None`; otherwise the secure base URL, the selected size token
and the file path are joined (each must be a string, as `''.join`
demands). -/
def createImageUrl (imageConfigAttr filePath : PyVal) (type_ : String) (targetSize : Int) :
    Except PyErr PyVal :=
  if imageConfigAttr = PyVal.none then .ok PyVal.none
  else
    match imageConfigAttr with
    | .pydict cfg =>
      match dictGet cfg "secure_base_url" with
      | Option.none => .error (.keyError "secure_base_url")
      | some baseV =>
        match imageSize imageConfigAttr type_ targetSize with
        | .error e => .error e
        | .ok sizeV =>
          match baseV, sizeV, filePath with
          | .str b, .str s, .str p => .ok (.str (b ++ s ++ p))
          | _, _, _ => .error (.typeError "sequence item: expected str instance")
    | _ => .error (.typeError "object is not subscriptable")

/-- The `image_url` property of a `Movie` (models.py:61-64 with
`IMAGE_TYPE = 'poster'` and target size 200).  Its first argument is the
current value of the class attribute `Movie.image_config`: instances
store no configuration of their own, so attribute lookup reaches the
class. -/
def movieImageUrl (imageConfigCls m : PyVal) : Except PyErr PyVal :=
  match m with
  | .movie _ p _ _ _ _ => createImageUrl imageConfigCls p "poster" 200
  | _ => .error (.attributeError "'object' has no attribute 'image_path'")

/-- `Movie.from_json` together with the class-attribute assignment
`cls.image_config = image_config` performed by `BaseModel.from_json`
(models.py:99): the result pairs the new instance with the new value of
the class attribute `Movie.image_config`, which *replaces* whatever the
previous value (`clsAttr`) was. -/
def movieFromJsonCls (fuel : Nat) (d : PyFields) (image_config _clsAttr : PyVal) :
    Except PyErr (PyVal × PyVal) :=
  match movieFromJsonF fuel d with
  | .error e => .error e
  | .ok e => .ok (e, image_config)

/-- Claim C9 — corrected (amended form).  The configuration injected at
decode time is stored on the *class*, not the instance: after any
successful decode the class attribute equals that decode's
configuration, regardless of what it was before, and `image_url` is a
function of the class attribute (plus the instance's path) alone — so
an entity's image URL tracks the configuration of the *latest* decode
of its kind, not the one supplied at its own decode. -/
theorem c9_config_class_attribute :
    (∀ fuel d cfg cls e cls',
      movieFromJsonCls fuel d cfg cls = .ok (e, cls') → cls' = cfg) ∧
    (∀ cls i p c s t r,
      movieImageUrl cls (.movie i p c s t r) = createImageUrl cls p "poster" 200) := by
  constructor
  · intro fuel d cfg cls e cls' h
    unfold movieFromJsonCls at h
    split at h
    · cases h
    · cases h
      rfl
  · intro cls i p c s t r
    rfl

/-- Witness for C9's quantified part at a concrete decode. -/
theorem c9_config_class_attribute_witness :
    movieFromJsonCls 3 (pyFieldsOf [("id", PyVal.int 1)])
        (.pydict (pyFieldsOf [("secure_base_url", .str "https://a.example/t/p/")]))
        PyVal.none =
      .ok (.movie (.int 1) .none .none .none .none .none,
        .pydict (pyFieldsOf [("secure_base_url", .str "https://a.example/t/p/")])) ∧
    (.pydict (pyFieldsOf [("secure_base_url", .str "https://a.example/t/p/")]) : PyVal) =
      .pydict (pyFieldsOf [("secure_base_url", .str "https://a.example/t/p/")]) :=
  ⟨by decide,
    c9_config_class_attribute.1 3 (pyFieldsOf [("id", PyVal.int 1)])
      (.pydict (pyFieldsOf [("secure_base_url", .str "https://a.example/t/p/")]))
      PyVal.none (.movie (.int 1) .none .none .none .none .none)
      (.pydict (pyFieldsOf [("secure_base_url", .str "https://a.example/t/p/")]))
      (by decide)⟩

/-- Claim C9 — counterexample to "the imageUrl derived for the first
entity ... is unchanged by the second decode": decode movie 1 under
configuration A (base URL `https://a.example/`), then movie 2 under
configuration B; since the configuration lives on the class, movie 1's
`image_url` now resolves against B's base URL and has changed. -/
theorem c9_counterexample :
    movieFromJsonCls 3 (pyFieldsOf [("id", PyVal.int 1), ("poster_path", PyVal.str "/one.jpg")])
        (.pydict (pyFieldsOf [("secure_base_url", .str "https://a.example/t/p/"),
          ("poster_sizes", .pylist (pyListOf [.str "w185"]))])) PyVal.none =
      .ok (.movie (.int 1) (.str "/one.jpg") .none .none .none .none,
        .pydict (pyFieldsOf [("secure_base_url", .str "https://a.example/t/p/"),
          ("poster_sizes", .pylist (pyListOf [.str "w185"]))])) ∧
    movieImageUrl
        (.pydict (pyFieldsOf [("secure_base_url", .str "https://a.example/t/p/"),
          ("poster_sizes", .pylist (pyListOf [.str "w185"]))]))
        (.movie (.int 1) (.str "/one.jpg") .none .none .none .none) =
      .ok (.str "https://a.example/t/p/w185/one.jpg") ∧
    movieFromJsonCls 3 (pyFieldsOf [("id", PyVal.int 2), ("poster_path", PyVal.str "/two.jpg")])
        (.pydict (pyFieldsOf [("secure_base_url", .str "https://b.example/t/p/"),
          ("poster_sizes", .pylist (pyListOf [.str "w185"]))]))
        (.pydict (pyFieldsOf [("secure_base_url", .str "https://a.example/t/p/"),
          ("poster_sizes", .pylist (pyListOf [.str "w185"]))])) =
      .ok (.movie (.int 2) (.str "/two.jpg") .none .none .none .none,
        .pydict (pyFieldsOf [("secure_base_url", .str "https://b.example/t/p/"),
          ("poster_sizes", .pylist (pyListOf [.str "w185"]))])) ∧
    movieImageUrl
        (.pydict (pyFieldsOf [("secure_base_url", .str "https://b.example/t/p/"),
          ("poster_sizes", .pylist (pyListOf [.str "w185"]))]))
        (.movie (.int 1) (.str "/one.jpg") .none .none .none .none) =
      .ok (.str "https://b.example/t/p/w185/one.jpg") ∧
    (PyVal.str "https://b.example/t/p/w185/one.jpg") ≠ .str "https://a.example/t/p/w185/one.jpg" := by
  refine ⟨by decide, by decide, by decide, by decide, by decide⟩

/-- `d[k] = v` on an `OrderedDict` with string values (the query
parameters of `url_builder`): same semantics as `dictSet`. -/
def dictSetStr : List (String × String) → String → String → List (String × String)
  | [], key, v => [(key, v)]
  | (k, w) :: tl, key, v =>
    if k = key then (k, v) :: tl else (k, w) :: dictSetStr tl key v

/-- Lookup in a string-valued ordered dict. -/
def lookupStr : List (String × String) → String → Option String
  | [], _ => Option.none
  | (k, v) :: tl, key => if k = key then some v else lookupStr tl key

/-- Upper-case hexadecimal digit, for percent-encoding. -/
def hexDigitChar (n : Nat) : Char :=
  if n < 10 then Char.ofNat ('0'.toNat + n) else Char.ofNat ('A'.toNat + n - 10)

/-- The characters `urllib.parse.quote_plus` leaves unescaped. -/
def isUrlSafeChar (c : Char) : Bool :=
  c.isAlphanum || c = '_' || c = '.' || c = '-' || c = '~'

/-- `urllib.parse.quote_plus` on one ASCII character (the only kind the
client's parameters contain): safe characters pass through, a space
becomes `+`, anything else a `%XX` escape. -/
def quotePlusChar (c : Char) : List Char :=
  if isUrlSafeChar c then [c]
  else if c = ' ' then ['+']
  else ['%', hexDigitChar (c.toNat / 16 % 16), hexDigitChar (c.toNat % 16)]

/-- `urllib.parse.quote_plus` on a string. -/
def quotePlus (s : String) : String :=
  String.mk (s.toList.map quotePlusChar).flatten

/-- `urllib.parse.urlencode(d)`: `k₁=v₁&k₂=v₂&…` in insertion order,
keys and values quoted. -/
def urlencodePairs (ps : List (String × String)) : String :=
  String.intercalate "&" (ps.map (fun kv => quotePlus kv.1 ++ "=" ++ quotePlus kv.2))

mutual
/-- `str.format(**params)` over the character sequence: `\x7b\x7b` and
`\x7d\x7d` are literal braces, `\x7bname\x7d` is replaced by the named
parameter (`KeyError` when missing), a lone closing brace is a
`ValueError`.  (Format specs beyond plain names are not used by this
client.) -/
def pyFormatChars (params : List (String × String)) : List Char → Except PyErr (List Char)
  | [] => .ok []
  | '\x7b' :: '\x7b' :: rest =>
    match pyFormatChars params rest with
    | .error e => .error e
    | .ok cs => .ok ('\x7b' :: cs)
  | '\x7d' :: '\x7d' :: rest =>
    match pyFormatChars params rest with
    | .error e => .error e
    | .ok cs => .ok ('\x7d' :: cs)
  | '\x7b' :: rest => pyFormatName params [] rest
  | '\x7d' :: _ => .error (.valueError "Single '\x7d' encountered in format string")
  | c :: rest =>
    match pyFormatChars params rest with
    | .error e => .error e
    | .ok cs => .ok (c :: cs)

/-- Reads a `\x7bname\x7d` placeholder body and substitutes its value. -/
def pyFormatName (params : List (String × String)) (acc : List Char) :
    List Char → Except PyErr (List Char)
  | [] => .error (.valueError "Single '\x7b' encountered in format string")
  | '\x7d' :: rest =>
    match lookupStr params (String.mk acc.reverse) with
    | Option.none => .error (.keyError (String.mk acc.reverse))
    | some v =>
      match pyFormatChars params rest with
      | .error e => .error e
      | .ok cs => .ok (v.toList ++ cs)
  | c :: rest => pyFormatName params (c :: acc) rest
end

/-- `Service.url_builder` (core.py:39-61):
`''.join([root, endpoint, '?' + urlencode(url_params) if url_params
else '']).format(**params or \x7b\x7d)`. -/
def serviceUrlBuilder (root endpoint : String) (params : List (String × String))
    (url_params : List (String × String)) : Except PyErr String :=
  match pyFormatChars params ((root ++ endpoint ++
      (if url_params = [] then "" else "?" ++ urlencodePairs url_params)).toList) with
  | .error e => .error e
  | .ok cs => .ok (String.mk cs)

/-- `TMDbClient.AUTH_PARAM` (client.py:25). -/
def AUTH_PARAM : String := "api_key"

/-- `TMDbClient.ROOT` (client.py:27). -/
def ROOT : String := "https://api.themoviedb.org/3/"

/-- `UrlParamMixin.url_builder` (core.py:110-119) as inherited by
`TMDbClient`: set `url_params[AUTH_PARAM] = api_token` (an
`OrderedDict` assignment: in place if the key exists, appended last
otherwise) and delegate to `Service.url_builder` with the default
root. -/
def urlBuilder (api_token endpoint : String) (params url_params : List (String × String)) :
    Except PyErr String :=
  serviceUrlBuilder ROOT endpoint params (dictSetStr url_params AUTH_PARAM api_token)

/-- When the key is not already present, the ordered-dict assignment
appends the new pair at the end. -/
theorem dictSetStr_append : ∀ (ps : List (String × String)) (key v : String),
    key ∉ ps.map Prod.fst → dictSetStr ps key v = ps ++ [(key, v)]
  | [], _, _, _ => rfl
  | (k, w) :: tl, key, v, h => by
    simp only [List.map_cons, List.mem_cons] at h
    push_neg at h
    simp only [dictSetStr, if_neg (Ne.symm h.1), List.cons_append, List.cons.injEq, true_and]
    exact dictSetStr_append tl key v h.2

/-- The assigned key always carries the assigned value afterwards. -/
theorem lookupStr_setStr : ∀ (ps : List (String × String)) (key v : String),
    lookupStr (dictSetStr ps key v) key = some v
  | [], key, v => by simp [dictSetStr, lookupStr]
  | (k, w) :: tl, key, v => by
    by_cases h : k = key
    · simp [dictSetStr, h, lookupStr]
    · simp [dictSetStr, h, lookupStr, lookupStr_setStr tl key v]

/-- Claim C8 — corrected.  The URL layer always carries the stored
credential under the auth parameter name, overwriting any
caller-supplied value; it is the *final* query parameter whenever the
caller did not themselves pass a parameter of that name (if they did,
the credential stays in the caller's position — see the
counterexample). -/
theorem c8_auth_param_injection :
    (∀ token ps, lookupStr (dictSetStr ps AUTH_PARAM token) AUTH_PARAM = some token) ∧
    (∀ token ps, AUTH_PARAM ∉ ps.map Prod.fst →
      (dictSetStr ps AUTH_PARAM token).getLast? = some (AUTH_PARAM, token)) ∧
    (∀ token endpoint params ps, urlBuilder token endpoint params ps =
      serviceUrlBuilder ROOT endpoint params (dictSetStr ps AUTH_PARAM token)) := by
  refine ⟨fun token ps => lookupStr_setStr ps AUTH_PARAM token, fun token ps h => ?_,
    fun _ _ _ _ => rfl⟩
  rw [dictSetStr_append ps AUTH_PARAM token h]
  exact List.getLast?_concat ps

/-- Witness for C8's quantified part at a concrete caller parameter
list that does not mention the auth name. -/
theorem c8_auth_param_injection_witness :
    AUTH_PARAM ∉ ([("query", "test movie")].map Prod.fst) ∧
    (dictSetStr [("query", "test movie")] AUTH_PARAM "TOKEN").getLast? =
      some (AUTH_PARAM, "TOKEN") :=
  ⟨by decide, c8_auth_param_injection.2.1 "TOKEN" [("query", "test movie")] (by decide)⟩

/-- Claim C8 — counterexample to "the stored credential is the final
query parameter" when the caller already supplied `api_key`: the
assignment overwrites the value *in place*, so the credential ends up
first, not last, and the built URL ends with the caller's other
parameter. -/
theorem c8_counterexample :
    dictSetStr [("api_key", "CALLER"), ("b", "2")] AUTH_PARAM "TOKEN"
      = [("api_key", "TOKEN"), ("b", "2")] ∧
    (dictSetStr [("api_key", "CALLER"), ("b", "2")] AUTH_PARAM "TOKEN").getLast?
      = some ("b", "2") ∧
    urlBuilder "TOKEN" "endpoint" [] [("api_key", "CALLER"), ("b", "2")]
      = .ok "https://api.themoviedb.org/3/endpoint?api_key=TOKEN&b=2" := by
  refine ⟨by decide, by decide, by decide⟩

/-- `self.url_builder('configuration')` — the configuration endpoint
URL (client.py:56, 77). -/
def configurationUrl (api_token : String) : Except PyErr String :=
  urlBuilder api_token "configuration" [] []

/-- Python `x is None` — an identity test on the `None` singleton,
modelled as a constructor test (no `__eq__` involved). -/
def isNoneVal : PyVal → Bool
  | .none => true
  | _ => false

/-- `v[key]` subscripting with a *string* key: a dict looks the key up
(`KeyError` when missing); subscripting a string with a string raises
`TypeError: string indices must be integers` — the error at the heart
of claim C1. -/
def pySubscriptStrKey (v : PyVal) (key : String) : Except PyErr PyVal :=
  match v with
  | .pydict d =>
    match dictGet d key with
    | some x => .ok x
    | Option.none => .error (.keyError key)
  | .str _ => .error (.typeError "string indices must be integers")
  | .pylist _ => .error (.typeError "list indices must be integers or slices, not str")
  | _ => .error (.typeError "object is not subscriptable")

/-- The Python builtin `int(x)`: integers and booleans convert, strings
parse (or raise `ValueError`), anything else raises `TypeError`. -/
def pyIntOf : PyVal → Except PyErr Int
  | .int n => .ok n
  | .bool b => .ok (if b then 1 else 0)
  | .str s =>
    match parseIntStr s with
    | some n => .ok n
    | Option.none =>
      .error (.valueError ("invalid literal for int() with base 10: '" ++ s ++ "'"))
  | _ => .error (.typeError "int() argument must be a string or a number")

/-- Days from 1970-01-01 to the civil date `y-m-d` (the standard civil
calendar computation), used to model UTC datetimes as epoch seconds. -/
def daysFromCivil (y : Int) (m d : Nat) : Int :=
  let y' := if m ≤ 2 then y - 1 else y
  let era : Int := (if 0 ≤ y' then y' else y' - 399) / 400
  let yoe : Int := y' - era * 400
  let mp : Int := ((m : Int) + 9) % 12
  let doy : Int := (153 * mp + 2) / 5 + (d : Int) - 1
  let doe : Int := yoe * 365 + yoe / 4 - yoe / 100 + doy
  era * 146097 + doe - 719468

/-- English month abbreviation to number, for HTTP dates. -/
def monthIndex (s : String) : Option Nat :=
  match s with
  | "Jan" => some 1
  | "Feb" => some 2
  | "Mar" => some 3
  | "Apr" => some 4
  | "May" => some 5
  | "Jun" => some 6
  | "Jul" => some 7
  | "Aug" => some 8
  | "Sep" => some 9
  | "Oct" => some 10
  | "Nov" => some 11
  | "Dec" => some 12
  | _ => Option.none

/-- Modelled library function: `dateutil.parser.parse` restricted to
the RFC-1123 HTTP dates a `Retry-After` header may carry
(`Sun, 06 Nov 1994 08:49:37 GMT`), as UTC epoch seconds; anything the
restricted grammar rejects is a parse failure (`ValueError` at the call
site). -/
def parseHttpDateEpoch (s : String) : Option Int :=
  let tokens := ((s.toList.filter (· ≠ ',')).splitOn ' ').filter (· ≠ []) |>.map String.mk
  match tokens with
  | [_dow, dd, mon, yyyy, time, _tz] =>
    match parseIntStr dd, monthIndex mon, parseIntStr yyyy, time.toList.splitOn ':' with
    | some d, some m, some y, [hs, ms, ss] =>
      match parseIntStr (String.mk hs), parseIntStr (String.mk ms),
          parseIntStr (String.mk ss) with
      | some hh, some mm, some sec =>
        if 0 ≤ d ∧ 0 ≤ hh ∧ hh < 24 ∧ 0 ≤ mm ∧ mm < 60 ∧ 0 ≤ sec ∧ sec < 60 then
          some (daysFromCivil y m d.toNat * 86400 + hh * 3600 + mm * 60 + sec)
        else Option.none
      | _, _, _ => Option.none
    | _, _, _, _ => Option.none
  | _ => Option.none

/-- `Service.calculate_timeout(headers)` (core.py:63-86): subscript the
*argument* with `'Retry-After'`; `try: return int(after)` catching only
`ValueError`, in which case `dateutil.parser.parse(after)` and the
delta to `datetime.now(tz=timezone.utc)` (here `now`, epoch seconds) is
returned. -/
def calculateTimeout (now : Int) (headers : PyVal) : Except PyErr Int :=
  match pySubscriptStrKey headers "Retry-After" with
  | .error e => .error e
  | .ok after =>
    match pyIntOf after with
    | .ok n => .ok n
    | .error (.valueError _) =>
      match after with
      | .str s =>
        match parseHttpDateEpoch s with
        | some epoch => .ok (epoch - now)
        | Option.none => .error (.valueError "Unknown string format")
      | _ => .error (.typeError "Parser must be a string or character stream")
    | .error e => .error e

/-- `TMDbClient.config` (client.py:33): `dict(data=None,
last_update=None)` at construction.  `data` holds the configuration
body (`PyVal.none` when absent) and `lastUpdate` the `datetime.now()`
stamp, modelled as epoch seconds. -/
structure CfgState where
  data : PyVal
  lastUpdate : Option Int
deriving DecidableEq

/-- `TMDbClient.config_expired` (client.py:39-42):
`(config['last_update'] + timedelta(days=2)) < datetime.now()`.  A
`None` stamp would raise `TypeError` (`None + timedelta`); the caller
only evaluates this when `data` is present. -/
def configExpired (st : CfgState) (now : Int) : Except PyErr Bool :=
  match st.lastUpdate with
  | some t => .ok (decide (t + 2 * 86400 < now))
  | Option.none => .error (.typeError "unsupported operand type(s) for +")

/-- One scripted transport response: HTTP status, response headers, and
the JSON-parsed body (`json.loads((await response.read()).decode())`),
exactly the shape the tests' `SimpleSessionMock` scripts. -/
structure RespModel where
  status : Nat
  headers : PyFields
  body : PyVal
deriving DecidableEq

/-- `TMDbClient.get_data` and `TMDbClient._update_config`
(client.py:44-94) are mutually recursive: `get_data` retries itself on
429 and refreshes the configuration through `_update_config` on
ordinary 200s, while `_update_config` fetches the configuration URL
through `get_data`.  They are embedded as one fuel-indexed pair of
functions (the fuel models Python's recursion limit); the transport is
a scripted list of responses consumed one per request, `now` is the
current UTC time in epoch seconds, and each call reports the parsed
result, the new `config` state, the transport-invocation count and the
`asyncio.sleep` durations — or the exception it raises.

First component — `get_data(url)` (client.py:59-94):
- 200: when the URL is not the configuration endpoint, run
  `_update_config()` first, then return the body;
- 429: `timeout = self.calculate_timeout(response.headers['Retry-After'])`
  — the *value* of the header is passed, and `calculate_timeout`
  subscripts its argument again — then `asyncio.sleep(timeout)` and
  retry the same URL;
- otherwise: log `body.get('status_message', '<no message>')` and fall
  through, returning `None`.

Second component — `_update_config()` (client.py:44-57): when the
stored data is `None` or the configuration is stale, fetch the
configuration URL through `get_data` and *unconditionally* store
`dict(data=data, last_update=datetime.now())` — also when the fetch
yielded no data. -/
def clientFns (api_token : String) (now : Int) :
    Nat →
    (List RespModel → String → CfgState →
        Except PyErr (PyVal × CfgState × Nat × List Int)) ×
      (List RespModel → CfgState → Except PyErr (CfgState × Nat × List Int))
  | 0 => (fun _ _ _ => .error .recursionError, fun _ _ => .error .recursionError)
  | Nat.succ fuel =>
    (fun trace url st =>
      match trace with
      | [] => .error (.typeError "transport exhausted (unscripted request)")
      | r :: rest =>
        if r.status = 200 then
          match configurationUrl api_token with
          | .error e => .error e
          | .ok cfgUrl =>
            if url ≠ cfgUrl then
              match (clientFns api_token now fuel).2 rest st with
              | .error e => .error e
              | .ok (st', n, sleeps) => .ok (r.body, st', 1 + n, sleeps)
            else .ok (r.body, st, 1, [])
        else if r.status = 429 then
          match dictGet r.headers "Retry-After" with
          | Option.none => .error (.keyError "Retry-After")
          | some hv =>
            match calculateTimeout now hv with
            | .error e => .error e
            | .ok t =>
              match (clientFns api_token now fuel).1 rest url st with
              | .error e => .error e
              | .ok (v, st', n, sleeps) => .ok (v, st', 1 + n, t :: sleeps)
        else
          match pyGetD r.body "status_message" (.str "<no message>") with
          | .error e => .error e
          | .ok _ => .ok (PyVal.none, st, 1, []),
     fun trace st =>
      match (if isNoneVal st.data then Except.ok true else configExpired st now) with
      | .error e => .error e
      | .ok false => .ok (st, 0, [])
      | .ok true =>
        match configurationUrl api_token with
        | .error e => .error e
        | .ok cfgUrl =>
          match (clientFns api_token now fuel).1 trace cfgUrl st with
          | .error e => .error e
          | .ok (v, _, n, sleeps) => .ok (⟨v, some now⟩, n, sleeps))

/-- `TMDbClient.get_data(url)` — see `clientFns`. -/
def getDataF (api_token : String) (now : Int) (fuel : Nat) (trace : List RespModel)
    (url : String) (st : CfgState) : Except PyErr (PyVal × CfgState × Nat × List Int) :=
  (clientFns api_token now fuel).1 trace url st

/-- `TMDbClient._update_config()` — see `clientFns`. -/
def updateConfigF (api_token : String) (now : Int) (fuel : Nat) (trace : List RespModel)
    (st : CfgState) : Except PyErr (CfgState × Nat × List Int) :=
  (clientFns api_token now fuel).2 trace st

/-- One unfolding step of `_update_config` at positive fuel. -/
theorem updateConfigF_succ (api_token : String) (now : Int) (fuel : Nat)
    (trace : List RespModel) (st : CfgState) :
    updateConfigF api_token now (fuel + 1) trace st =
      match (if isNoneVal st.data then Except.ok true else configExpired st now) with
      | .error e => .error e
      | .ok false => .ok (st, 0, [])
      | .ok true =>
        match configurationUrl api_token with
        | .error e => .error e
        | .ok cfgUrl =>
          match getDataF api_token now fuel trace cfgUrl st with
          | .error e => .error e
          | .ok (v, _, n, sleeps) => .ok (⟨v, some now⟩, n, sleeps) := rfl

/-- Claim C1 — the code contradicts the claim (and its own test suite):
on a 429 response with `Retry-After: 1`, `get_data` passes the header
*value* (`'1'`) to `calculate_timeout`, which subscripts its argument
with `'Retry-After'` again; subscripting the string raises
`TypeError: string indices must be integers`, so the call never sleeps,
never retries, and never returns the payload.  The two further
conjuncts evaluate `calculate_timeout` on the header *mapping* — the
argument its own signature and `tests/test_client.py` expect — where it
computes the documented timeout, locating the slip at the call site in
`get_data`. -/
theorem c1_rate_limit_retry_bug :
    getDataF "TOKEN" 0 5
        [⟨429, pyFieldsOf [("Retry-After", .str "1")], .pydict .nil⟩,
          ⟨200, .nil, .pydict (pyFieldsOf [("some", .str "data")])⟩]
        "https://api.themoviedb.org/3/search/movie?api_key=TOKEN" ⟨.none, Option.none⟩
      = .error (.typeError "string indices must be integers") ∧
    calculateTimeout 0 (.pydict (pyFieldsOf [("Retry-After", .str "1")])) = .ok 1 ∧
    calculateTimeout 0 (.pydict (pyFieldsOf [("Retry-After", .str "120")])) = .ok 120 := by
  refine ⟨by decide, by decide, by decide⟩

/-- Claim C3 — corrected (amended form).  When a due refresh's fetch
yields no data, no exception propagates (the result is `ok`), but the
previous configuration is *not* left untouched: the state is replaced
by `dict(data=None, last_update=now)`. -/
theorem c3_failed_refresh_replaces_config :
    ∀ (token : String) (now : Int) (fuel : Nat) (trace : List RespModel) (st : CfgState)
      (cfgUrl : String) (stInner : CfgState) (n : Nat) (sleeps : List Int),
      configurationUrl token = .ok cfgUrl →
      (st.data = PyVal.none ∨ configExpired st now = .ok true) →
      getDataF token now fuel trace cfgUrl st = .ok (PyVal.none, stInner, n, sleeps) →
      updateConfigF token now (fuel + 1) trace st =
        .ok (⟨PyVal.none, some now⟩, n, sleeps) := by
  intro token now fuel trace st cfgUrl stInner n sleeps hurl hstale hget
  have hcheck : (if isNoneVal st.data then Except.ok true else configExpired st now) =
      Except.ok true := by
    rcases hstale with h | h
    · rw [h]
      rfl
    · by_cases hd : isNoneVal st.data = true
      · rw [if_pos hd]
      · rw [if_neg hd]
        exact h
  rw [updateConfigF_succ, hcheck, hurl]
  dsimp only
  rw [hget]

/-- Witness for C3's amended theorem: an expired configuration whose
refresh fetch hits a 404 (so `get_data` returns no data) ends up
replaced by an absent configuration stamped `now`. -/
theorem c3_failed_refresh_replaces_config_witness :
    configurationUrl "TOKEN" =
      .ok "https://api.themoviedb.org/3/configuration?api_key=TOKEN" ∧
    configExpired ⟨.pydict (pyFieldsOf [("images", .pydict .nil)]), some 0⟩ 1000000 =
      .ok true ∧
    getDataF "TOKEN" 1000000 4
        [⟨404, .nil, .pydict (pyFieldsOf [("status_message", .str "not found")])⟩]
        "https://api.themoviedb.org/3/configuration?api_key=TOKEN"
        ⟨.pydict (pyFieldsOf [("images", .pydict .nil)]), some 0⟩ =
      .ok (PyVal.none, ⟨.pydict (pyFieldsOf [("images", .pydict .nil)]), some 0⟩, 1, []) ∧
    updateConfigF "TOKEN" 1000000 5
        [⟨404, .nil, .pydict (pyFieldsOf [("status_message", .str "not found")])⟩]
        ⟨.pydict (pyFieldsOf [("images", .pydict .nil)]), some 0⟩ =
      .ok (⟨PyVal.none, some 1000000⟩, 1, []) :=
  ⟨by decide, by decide, by decide,
    c3_failed_refresh_replaces_config "TOKEN" 1000000 4
      [⟨404, .nil, .pydict (pyFieldsOf [("status_message", .str "not found")])⟩]
      ⟨.pydict (pyFieldsOf [("images", .pydict .nil)]), some 0⟩
      "https://api.themoviedb.org/3/configuration?api_key=TOKEN"
      ⟨.pydict (pyFieldsOf [("images", .pydict .nil)]), some 0⟩ 1 []
      (by decide) (Or.inr (by decide)) (by decide)⟩

/-- Claim C3 — counterexample to "the previously stored configuration
and its last-fetch timestamp are left untouched": after the failed
refresh the stored state differs from the previous one — the data is
gone and the stamp moved. -/
theorem c3_counterexample :
    updateConfigF "TOKEN" 1000000 5
        [⟨404, .nil, .pydict (pyFieldsOf [("status_message", .str "not found")])⟩]
        ⟨.pydict (pyFieldsOf [("images", .pydict (pyFieldsOf
          [("secure_base_url", .str "https://image.tmdb.org/t/p/")]))]), some 0⟩ =
      .ok (⟨PyVal.none, some 1000000⟩, 1, []) ∧
    (⟨PyVal.none, some 1000000⟩ : CfgState) ≠
      ⟨.pydict (pyFieldsOf [("images", .pydict (pyFieldsOf
        [("secure_base_url", .str "https://image.tmdb.org/t/p/")]))]), some 0⟩ := by
  refine ⟨by decide, by decide⟩
